import Mathlib

/-!
Shallow embedding of the billing core of the community-management
application (src/community_managment_git/app.py): the ledger data model
(houses, meter readings, bills, payments), the bill generator
(generate_bills, generate_water_bill_preview, generate_water_bills_final),
the payment reconciler (record_payment) and the consumption calculator
(add_meter_reading).  Monetary and meter quantities are modelled as
rationals; dates as integers counting days.
-/

namespace CommunityApp

/-- Row of the houses table (the fields the billing core reads). -/
structure House where
  id : Nat
  house_number : String
  owner_name : String
  status : String
deriving Repr, DecidableEq

/-- Row of the meter_readings table (the fields the billing core reads). -/
structure MeterReading where
  id : Nat
  house_id : Nat
  reading_date : Int
  current_reading : ℚ
  previous_reading : ℚ
  consumption : ℚ
deriving Repr, DecidableEq

/-- Row of the bills table. -/
structure Bill where
  id : Nat
  house_id : Nat
  bill_type : String
  billing_cycle : String
  generation_date : Int
  due_date : Int
  fixed_maintenance : ℚ
  individual_water_consumption : ℚ
  individual_water_charge : ℚ
  water_maintenance_25_percent : ℚ
  waste_water_charge : ℚ
  repair_charge : ℚ
  previous_balance : ℚ
  total_amount_due : ℚ
  total_amount_paid : ℚ
  current_balance : ℚ
  status : String
deriving Repr, DecidableEq

/-- Row of the payments table (the fields the billing core writes). -/
structure Payment where
  bill_id : Nat
  house_id : Nat
  payment_date : Int
  amount_paid : ℚ
deriving Repr, DecidableEq

/-- The ledger store: the four tables the billing core touches. -/
structure DB where
  houses : List House
  meter_readings : List MeterReading
  bills : List Bill
  payments : List Payment
deriving Repr, DecidableEq

/-- Effect of the UPDATE statement in record_payment (app.py lines
1059-1069) on the matched bill row: every right-hand side reads the
pre-update values of the row, as SQL does. -/
def recordPaymentBill (b : Bill) (amount_paid : ℚ) : Bill :=
  { b with
    total_amount_paid := b.total_amount_paid + amount_paid
    current_balance := b.total_amount_due - (b.total_amount_paid + amount_paid)
    status :=
      if b.total_amount_paid + amount_paid ≥ b.total_amount_due then "paid"
      else if b.total_amount_paid + amount_paid > 0 then "partially_paid"
      else "pending" }

/-- The POST branch of record_payment (app.py lines 1040-1075): insert the
payment row unconditionally, then run the UPDATE on every bill whose id
matches (there is no existence check and no amount validation in the
source). -/
def record_payment (db : DB) (house_id bill_id : Nat) (payment_date : Int)
    (amount_paid : ℚ) : DB :=
  { db with
    payments := db.payments ++ [⟨bill_id, house_id, payment_date, amount_paid⟩]
    bills := db.bills.map fun b =>
      if b.id = bill_id then recordPaymentBill b amount_paid else b }

/-- The query SELECT ... FROM meter_readings WHERE house_id = ? ORDER BY
reading_date DESC LIMIT 1 (app.py lines 1242-1247): the first-scanned row
among those of the house with maximal reading_date. -/
def latestReadingByDate (rs : List MeterReading) (hid : Nat) : Option MeterReading :=
  match rs.filter (fun r => r.house_id == hid) with
  | [] => none
  | r :: tl => some (tl.foldl (fun acc x => if acc.reading_date < x.reading_date then x else acc) r)

/-- The POST branch of add_meter_reading (app.py lines 1236-1264):
previous_reading is the current_reading of the latest stored reading of
the house (0 if none), consumption is the raw signed difference, and the
new row is appended. -/
def add_meter_reading (db : DB) (hid : Nat) (reading_date : Int)
    (current_reading : ℚ) (nid : Nat) : DB :=
  let previous_reading : ℚ :=
    match latestReadingByDate db.meter_readings hid with
    | some r => r.current_reading
    | none => 0
  let consumption := current_reading - previous_reading
  { db with meter_readings := db.meter_readings ++
      [⟨nid, hid, reading_date, current_reading, previous_reading, consumption⟩] }

/-- The query SELECT current_balance FROM bills WHERE house_id = ? AND
bill_type = ? ORDER BY billing_cycle DESC LIMIT 1 (app.py lines 684-689
and 753-758), defaulting to 0 when no row matches. -/
def latestBalanceOfType (bills : List Bill) (hid : Nat) (ty : String) : ℚ :=
  match bills.filter (fun b => b.house_id == hid && b.bill_type == ty) with
  | [] => 0
  | b :: tl =>
    (tl.foldl (fun acc x => if acc.billing_cycle < x.billing_cycle then x else acc) b).current_balance

/-- One maintenance bill as inserted by generate_bills (app.py lines
682-704): total due is the fixed amount 3000 plus the previous maintenance
balance; total_amount_paid and status take the schema defaults 0 and
pending (app.py lines 101-103). -/
def mkMaintenanceBill (bills : List Bill) (h : House) (cycle : String)
    (today : Int) (bid : Nat) : Bill :=
  let previous_balance := latestBalanceOfType bills h.id "maintenance"
  let total_due := 3000 + previous_balance
  { id := bid, house_id := h.id, bill_type := "maintenance", billing_cycle := cycle
    generation_date := today, due_date := today + 15
    fixed_maintenance := 3000, individual_water_consumption := 0
    individual_water_charge := 0, water_maintenance_25_percent := 0
    waste_water_charge := 0, repair_charge := 0
    previous_balance := previous_balance, total_amount_due := total_due
    total_amount_paid := 0, current_balance := total_due, status := "pending" }

/-- The maintenance loop of generate_bills: each house looks up its
previous balance against the table as it stands at that point of the loop
(earlier inserts of the same run included), then inserts its bill. -/
def genMaintenanceBills (bills : List Bill) (houses : List House)
    (cycle : String) (today : Int) (bid : Nat) : List Bill :=
  match houses with
  | [] => []
  | h :: hs =>
    let b := mkMaintenanceBill bills h cycle today bid
    b :: genMaintenanceBills (bills ++ [b]) hs cycle today (bid + 1)

/-- The per-house form fields read by generate_water_bills_final (app.py
lines 904-909), indexed by house id. -/
structure WaterForm where
  water_charge : Nat → ℚ
  water_maintenance : Nat → ℚ
  waste_water : Nat → ℚ
  repair_charge : Nat → ℚ
  consumption : Nat → ℚ
  previous_balance : Nat → ℚ

/-- One water bill as inserted by generate_water_bills_final (app.py lines
900-928): the total is recomputed from the submitted itemized values, and
total_amount_paid and status take the schema defaults. -/
def mkWaterBill (f : WaterForm) (hid : Nat) (cycle : String) (today : Int)
    (bid : Nat) : Bill :=
  let total_due := f.water_charge hid + f.water_maintenance hid + f.waste_water hid +
    f.repair_charge hid + f.previous_balance hid
  { id := bid, house_id := hid, bill_type := "water", billing_cycle := cycle
    generation_date := today, due_date := today + 15
    fixed_maintenance := 0
    individual_water_consumption := f.consumption hid
    individual_water_charge := f.water_charge hid
    water_maintenance_25_percent := f.water_maintenance hid
    waste_water_charge := f.waste_water hid
    repair_charge := f.repair_charge hid
    previous_balance := f.previous_balance hid
    total_amount_due := total_due, total_amount_paid := 0
    current_balance := total_due, status := "pending" }

/-- The loop of generate_water_bills_final over the supplied houses. -/
def genWaterBills (f : WaterForm) (houses : List House) (cycle : String)
    (today : Int) (bid : Nat) : List Bill :=
  match houses with
  | [] => []
  | h :: hs => mkWaterBill f h.id cycle today bid :: genWaterBills f hs cycle today (bid + 1)

/-- The only failure outcome of bill generation: the flash-and-abort path
taken when bills for the cycle and type already exist. -/
inductive GenError where
  | DuplicateBillError
deriving Repr, DecidableEq

/-- The POST branch of generate_bills (app.py lines 661-721): first the
duplicate check on (billing_cycle, bill_type) over all houses, aborting
with no write when any row matches; then the occupied-house filter; then
the maintenance loop, or for water either the non-persisting preview
request or the final insert loop.  The returned DB is the state after the
request; the option marks the failure outcome. -/
def generate_bills (db : DB) (cycle ty : String) (f : WaterForm)
    (preview : Bool) (today : Int) (bid : Nat) : DB × Option GenError :=
  if 0 < (db.bills.filter (fun b => b.billing_cycle == cycle && b.bill_type == ty)).length then
    (db, some GenError.DuplicateBillError)
  else if ty = "maintenance" then
    ({ db with bills := db.bills ++ genMaintenanceBills db.bills (db.houses.filter fun h => h.status == "occupied") cycle today bid }, none)
  else if ty = "water" then
    if preview then (db, none)
    else ({ db with bills := db.bills ++ genWaterBills f (db.houses.filter fun h => h.status == "occupied") cycle today bid }, none)
  else (db, none)

/-- The per-house data collected by the first loop of
generate_water_bill_preview (app.py lines 739-766). -/
structure WaterHouseData where
  house_id : Nat
  consumption : ℚ
  previous_balance : ℚ
deriving Repr, DecidableEq

/-- One row of the preview computed by the second loop of
generate_water_bill_preview (app.py lines 771-793). -/
structure WaterPreviewRow where
  house_id : Nat
  consumption : ℚ
  previous_balance : ℚ
  water_charge : ℚ
  water_maintenance : ℚ
  waste_water : ℚ
  repair_charge : ℚ
  additional_amount : ℚ
  total_due : ℚ
deriving Repr, DecidableEq

/-- The consumption taken for a house by the preview (app.py line 749):
the consumption of the latest reading, with falsy values (no reading, or
a stored 0) replaced by 0. -/
def latestConsumption (rs : List MeterReading) (hid : Nat) : ℚ :=
  match latestReadingByDate rs hid with
  | none => 0
  | some r => if r.consumption == 0 then 0 else r.consumption

/-- The first loop of generate_water_bill_preview: consumption and
previous water balance per supplied house. -/
def buildWaterHouseData (rs : List MeterReading) (bills : List Bill)
    (houses : List House) : List WaterHouseData :=
  houses.map fun h => ⟨h.id, latestConsumption rs h.id, latestBalanceOfType bills h.id "water"⟩

/-- The charge computation of the second loop of
generate_water_bill_preview (app.py lines 771-793): unit rate 70,
surcharge 0.25, shared charges divided by the number of houses of the run. -/
def previewRow (house_count : Nat) (waste_water_charge repair_charge : ℚ)
    (hd : WaterHouseData) : WaterPreviewRow :=
  let individual_water_charge := hd.consumption * 70
  let water_maintenance := individual_water_charge * 0.25
  let house_waste_water := waste_water_charge / (house_count : ℚ)
  let house_repair_charge := repair_charge / (house_count : ℚ)
  let additional_amount := individual_water_charge + water_maintenance +
    house_waste_water + house_repair_charge
  let total_due := additional_amount + hd.previous_balance
  ⟨hd.house_id, hd.consumption, hd.previous_balance, individual_water_charge,
   water_maintenance, house_waste_water, house_repair_charge, additional_amount, total_due⟩

/-- generate_water_bill_preview (app.py lines 725-802): collect the
per-house data, then compute every charge row; nothing is persisted. -/
def generate_water_bill_preview (rs : List MeterReading) (bills : List Bill)
    (houses : List House) (waste_water_charge repair_charge : ℚ) : List WaterPreviewRow :=
  (buildWaterHouseData rs bills houses).map
    (previewRow houses.length waste_water_charge repair_charge)

/-- Sequential application of a list of payment amounts to one bill, each
through the UPDATE of record_payment. -/
def applyPayments (b : Bill) (amounts : List ℚ) : Bill :=
  amounts.foldl recordPaymentBill b

/-- A pending maintenance bill with id 1 for house 1, cycle 2025-01, due
3000, nothing paid. -/
def bill0 : Bill :=
  { id := 1, house_id := 1, bill_type := "maintenance", billing_cycle := "2025-01"
    generation_date := 0, due_date := 15
    fixed_maintenance := 3000, individual_water_consumption := 0
    individual_water_charge := 0, water_maintenance_25_percent := 0
    waste_water_charge := 0, repair_charge := 0
    previous_balance := 0, total_amount_due := 3000
    total_amount_paid := 0, current_balance := 3000, status := "pending" }

/-- A ledger with one occupied house and the single bill bill0. -/
def db0 : DB :=
  { houses := [⟨1, "H101", "Asha", "occupied"⟩], meter_readings := []
    bills := [bill0], payments := [] }

/-- A water form whose every field is 0. -/
def wform0 : WaterForm :=
  ⟨fun _ => 0, fun _ => 0, fun _ => 0, fun _ => 0, fun _ => 0, fun _ => 0⟩

/-- An empty ledger: no houses at all. -/
def dbNoHouses : DB :=
  { houses := [], meter_readings := [], bills := [], payments := [] }

/-- Claim C1: applying a payment of amount a to a bill raises
total_amount_paid by exactly a, leaves total_amount_due unchanged, makes
current_balance equal total_amount_due minus the new total_amount_paid
(negative balances allowed, nothing is clamped), and sets status to paid
when the new total_amount_paid reaches total_amount_due, to partially_paid
when it is positive but short, and to pending otherwise. -/
theorem record_payment_reconciles (b : Bill) (a : ℚ) :
    (recordPaymentBill b a).total_amount_paid = b.total_amount_paid + a ∧
    (recordPaymentBill b a).total_amount_due = b.total_amount_due ∧
    (recordPaymentBill b a).current_balance =
      (recordPaymentBill b a).total_amount_due - (recordPaymentBill b a).total_amount_paid ∧
    (recordPaymentBill b a).status =
      (if (recordPaymentBill b a).total_amount_paid ≥ (recordPaymentBill b a).total_amount_due
        then "paid"
       else if (recordPaymentBill b a).total_amount_paid > 0 then "partially_paid"
       else "pending") :=
  ⟨rfl, rfl, rfl, rfl⟩

/-- Claim C5: adding a meter reading appends exactly one row whose
previous_reading is the current_reading of the latest stored reading of
the house (0 when the house has none, so a first-ever reading gets
consumption equal to its current_reading), and whose consumption is the
raw signed difference, stored as-is. -/
theorem add_meter_reading_spec (db : DB) (hid : Nat) (d : Int) (cur : ℚ) (nid : Nat) :
    ∃ r : MeterReading,
      (add_meter_reading db hid d cur nid).meter_readings = db.meter_readings ++ [r] ∧
      r.previous_reading = (match latestReadingByDate db.meter_readings hid with
        | some p => p.current_reading
        | none => 0) ∧
      r.consumption = cur - r.previous_reading ∧
      r.current_reading = cur ∧ r.house_id = hid :=
  ⟨_, rfl, rfl, rfl, rfl, rfl⟩

/-- Claim C7 (failing input): the source performs no validation on the
payment amount.  A payment of -100 against bill0 is persisted and applied:
total_amount_paid becomes -100 and current_balance 3100, instead of the
rejection with no state change that the specification requires. -/
theorem record_payment_accepts_negative_amount :
    (record_payment db0 1 1 0 (-100)).payments = [⟨1, 1, 0, -100⟩] ∧
    ∃ b ∈ (record_payment db0 1 1 0 (-100)).bills,
      b.total_amount_paid = -100 ∧ b.current_balance = 3100 ∧ b.status = "pending" := by
  constructor
  · rfl
  · norm_num [record_payment, db0, recordPaymentBill, bill0]

/-- Claim C8 (failing input): the source performs no existence check on
the referenced bill.  A payment against the absent bill id 99 is persisted
as a payment row while the UPDATE matches nothing, instead of the
NotFoundError with no persisted payment that the specification requires. -/
theorem record_payment_missing_bill_persists :
    (record_payment db0 1 99 0 500).payments = [⟨99, 1, 0, 500⟩] ∧
    (record_payment db0 1 99 0 500).bills = db0.bills := by
  constructor
  · rfl
  · decide

/-- Claim C6 (failing input): with no occupied house, final water
generation completes silently with the ledger unchanged and no error, and
the water preview returns an empty row list; no InvalidAmountError guard
exists in the source (the division by the house count sits inside a loop
that never runs). -/
theorem water_generation_empty_house_list_silent :
    generate_bills dbNoHouses "2025-01" "water" wform0 false 0 1 = (dbNoHouses, none) ∧
    generate_water_bill_preview [] [] [] 500 0 = [] := by
  constructor
  · decide
  · rfl

/-- Claim C2: when any bill with the given billing cycle and bill type
already exists, generate_bills aborts before any write: the result is the
unchanged ledger together with the duplicate failure, so no new bill is
written and every existing bill is left unmodified, whatever the type,
preview flag or other parameters. -/
theorem generate_bills_duplicate_aborts (db : DB) (cycle ty : String)
    (f : WaterForm) (preview : Bool) (today : Int) (bid : Nat) (b : Bill)
    (hb : b ∈ db.bills) (hcy : b.billing_cycle = cycle) (hty : b.bill_type = ty) :
    generate_bills db cycle ty f preview today bid = (db, some GenError.DuplicateBillError) := by
  have hmem : b ∈ db.bills.filter (fun x => x.billing_cycle == cycle && x.bill_type == ty) :=
    List.mem_filter.mpr ⟨hb, by simp [hcy, hty]⟩
  have hpos : 0 < (db.bills.filter (fun x => x.billing_cycle == cycle && x.bill_type == ty)).length :=
    List.length_pos.mpr (List.ne_nil_of_mem hmem)
  unfold generate_bills
  rw [if_pos hpos]

/-- Witness for C2: db0 already holds bill0 for (maintenance, 2025-01), so
a second maintenance generation for that cycle fails with the duplicate
error and returns the ledger unchanged. -/
theorem generate_bills_duplicate_aborts_witness :
    generate_bills db0 "2025-01" "maintenance" wform0 false 0 2 =
      (db0, some GenError.DuplicateBillError) :=
  generate_bills_duplicate_aborts db0 "2025-01" "maintenance" wform0 false 0 2 bill0
    (by simp [db0]) rfl rfl

/-- Folding payments through the UPDATE never changes total_amount_due. -/
theorem applyPayments_due (amounts : List ℚ) (b : Bill) :
    (applyPayments b amounts).total_amount_due = b.total_amount_due := by
  induction amounts generalizing b with
  | nil => rfl
  | cons a t ih => exact ih (recordPaymentBill b a)

/-- Folding payments through the UPDATE adds the sum of the amounts to
total_amount_paid. -/
theorem applyPayments_paid (amounts : List ℚ) (b : Bill) :
    (applyPayments b amounts).total_amount_paid = b.total_amount_paid + amounts.sum := by
  induction amounts generalizing b with
  | nil => simp [applyPayments]
  | cons a t ih =>
    have h := ih (recordPaymentBill b a)
    simp only [applyPayments, List.foldl_cons] at h ⊢
    rw [h]
    show b.total_amount_paid + a + t.sum = b.total_amount_paid + (a :: t).sum
    rw [List.sum_cons]
    ring

/-- The balance invariant current_balance = total_amount_due -
total_amount_paid is preserved by any fold of payments. -/
theorem applyPayments_balance (amounts : List ℚ) (b : Bill)
    (hinv : b.current_balance = b.total_amount_due - b.total_amount_paid) :
    (applyPayments b amounts).current_balance =
      (applyPayments b amounts).total_amount_due - (applyPayments b amounts).total_amount_paid := by
  induction amounts generalizing b with
  | nil => exact hinv
  | cons a t ih => exact ih (recordPaymentBill b a) rfl

/-- Claim C9: applying any finite list of positive payments to a freshly
generated bill (nothing paid, balance equal to the amount due) yields
total_amount_paid equal to the sum of the amounts and current_balance
equal to total_amount_due minus that sum, and any permutation of the
amounts yields the same final totals. -/
theorem payments_order_independent (b : Bill) (l l' : List ℚ)
    (hperm : l.Perm l') (hpaid0 : b.total_amount_paid = 0)
    (hbal : b.current_balance = b.total_amount_due)
    (_hpos : ∀ a ∈ l, 0 < a) :
    (applyPayments b l).total_amount_paid = l.sum ∧
    (applyPayments b l).current_balance = b.total_amount_due - l.sum ∧
    (applyPayments b l').total_amount_paid = (applyPayments b l).total_amount_paid ∧
    (applyPayments b l').current_balance = (applyPayments b l).current_balance := by
  have hsum : l.sum = l'.sum := hperm.sum_eq
  have hp : (applyPayments b l).total_amount_paid = l.sum := by
    rw [applyPayments_paid, hpaid0, zero_add]
  have hp' : (applyPayments b l').total_amount_paid = l'.sum := by
    rw [applyPayments_paid, hpaid0, zero_add]
  have hib : b.current_balance = b.total_amount_due - b.total_amount_paid := by
    rw [hbal, hpaid0, sub_zero]
  have hc : (applyPayments b l).current_balance = b.total_amount_due - l.sum := by
    rw [applyPayments_balance l b hib, applyPayments_due, hp]
  have hc' : (applyPayments b l').current_balance = b.total_amount_due - l'.sum := by
    rw [applyPayments_balance l' b hib, applyPayments_due, hp']
  exact ⟨hp, hc, by rw [hp, hp', hsum], by rw [hc, hc', hsum]⟩

/-- Witness for C9: the payments 1200 then 1800 against bill0 sum to 3000,
matching the totals in either order. -/
theorem payments_order_independent_witness :
    (applyPayments bill0 [1200, 1800]).total_amount_paid = ([1200, 1800] : List ℚ).sum ∧
    (applyPayments bill0 [1200, 1800]).current_balance =
      bill0.total_amount_due - ([1200, 1800] : List ℚ).sum ∧
    (applyPayments bill0 [1800, 1200]).total_amount_paid =
      (applyPayments bill0 [1200, 1800]).total_amount_paid ∧
    (applyPayments bill0 [1800, 1200]).current_balance =
      (applyPayments bill0 [1200, 1800]).current_balance :=
  payments_order_independent bill0 [1200, 1800] [1800, 1200]
    (List.Perm.swap (1800 : ℚ) 1200 [])
    rfl rfl (by norm_num)

/-- Claim C4: every house of a water preview run gets a row whose
individual water charge is its consumption times the unit rate 70, whose
surcharge is a quarter of that charge, whose shared waste-water and repair
charges are the community totals divided by the number of houses of the
run, and whose total due is the sum of those four charges plus the
previous water balance of the house. -/
theorem water_preview_spec (rs : List MeterReading) (bills : List Bill)
    (houses : List House) (ww rc : ℚ) (h : House) (hmem : h ∈ houses) :
    ∃ row ∈ generate_water_bill_preview rs bills houses ww rc,
      row.house_id = h.id ∧
      row.water_charge = latestConsumption rs h.id * 70 ∧
      row.water_maintenance = row.water_charge * 0.25 ∧
      row.waste_water = ww / (houses.length : ℚ) ∧
      row.repair_charge = rc / (houses.length : ℚ) ∧
      row.total_due = row.water_charge + row.water_maintenance + row.waste_water +
        row.repair_charge + latestBalanceOfType bills h.id "water" := by
  refine ⟨previewRow houses.length ww rc
    ⟨h.id, latestConsumption rs h.id, latestBalanceOfType bills h.id "water"⟩,
    ?_, rfl, rfl, rfl, rfl, rfl, rfl⟩
  unfold generate_water_bill_preview buildWaterHouseData
  rw [List.map_map]
  exact List.mem_map.mpr ⟨h, hmem, rfl⟩

/-- Five occupied houses for the water scenario. -/
def houses5 : List House :=
  [⟨1, "H101", "Asha", "occupied"⟩, ⟨2, "H102", "Bina", "occupied"⟩,
   ⟨3, "H103", "Charu", "occupied"⟩, ⟨4, "H104", "Dev", "occupied"⟩,
   ⟨5, "H105", "Esha", "occupied"⟩]

/-- A reading giving house 1 a consumption of 10 units. -/
def readings10 : List MeterReading := [⟨1, 1, 0, 110, 100, 10⟩]

/-- Witness for C4: for consumption 10, rate 70, shared waste water 500
over the 5 houses and repair 0, the theorem yields the row of house 1 and
that row evaluates to charge 700, surcharge 175, shared share 100 and a
total due of 975. -/
theorem water_preview_spec_witness :
    (∃ row ∈ generate_water_bill_preview readings10 [] houses5 500 0,
      row.house_id = 1 ∧
      row.water_charge = latestConsumption readings10 1 * 70 ∧
      row.water_maintenance = row.water_charge * 0.25 ∧
      row.waste_water = 500 / ((houses5.length : ℚ)) ∧
      row.repair_charge = 0 / ((houses5.length : ℚ)) ∧
      row.total_due = row.water_charge + row.water_maintenance + row.waste_water +
        row.repair_charge + latestBalanceOfType [] 1 "water") ∧
    (∃ row ∈ generate_water_bill_preview readings10 [] houses5 500 0,
      row.water_charge = 700 ∧ row.water_maintenance = 175 ∧
      row.waste_water = 100 ∧ row.total_due = 975) := by
  constructor
  · exact water_preview_spec readings10 [] houses5 500 0 ⟨1, "H101", "Asha", "occupied"⟩
      (by simp [houses5])
  · refine ⟨previewRow houses5.length 500 0 ⟨1, latestConsumption readings10 1, 0⟩, ?_, ?_⟩
    · exact List.mem_map.mpr ⟨⟨1, latestConsumption readings10 1, 0⟩,
        List.mem_map.mpr ⟨⟨1, "H101", "Asha", "occupied"⟩, by simp [houses5], rfl⟩, rfl⟩
    · norm_num [previewRow, latestConsumption, latestReadingByDate, readings10, houses5]

/-- Appending bills of other houses does not change the previous-balance
lookup of a house. -/
theorem latestBalanceOfType_append_irrelevant (orig extra : List Bill) (hid : Nat)
    (ty : String) (hx : ∀ e ∈ extra, e.house_id ≠ hid) :
    latestBalanceOfType (orig ++ extra) hid ty = latestBalanceOfType orig hid ty := by
  unfold latestBalanceOfType
  rw [List.filter_append]
  have hnil : extra.filter (fun b => b.house_id == hid && b.bill_type == ty) = [] := by
    rw [List.filter_eq_nil_iff]
    intro e he
    simp [hx e he]
  rw [hnil, List.append_nil]

/-- The maintenance loop, started on a table orig ++ extra where the extra
rows belong to none of the remaining houses, gives every house a bill
computed from its balance in orig, with the fields the INSERT and the
schema defaults set. -/
theorem genMaintenanceBills_spec (houses : List House) :
    ∀ (orig extra : List Bill) (cycle : String) (today : Int) (bid : Nat),
    (∀ e ∈ extra, ∀ h ∈ houses, e.house_id ≠ h.id) →
    (houses.map House.id).Nodup →
    ∀ h ∈ houses,
      ∃ b ∈ genMaintenanceBills (orig ++ extra) houses cycle today bid,
        b.house_id = h.id ∧
        b.previous_balance = latestBalanceOfType orig h.id "maintenance" ∧
        b.total_amount_due = 3000 + latestBalanceOfType orig h.id "maintenance" ∧
        b.generation_date = today ∧ b.due_date = today + 15 ∧
        b.total_amount_paid = 0 ∧ b.current_balance = b.total_amount_due ∧
        b.status = "pending" ∧ b.bill_type = "maintenance" ∧ b.billing_cycle = cycle := by
  induction houses with
  | nil =>
    intro _ _ _ _ _ _ _ h hmem
    exact absurd hmem (List.not_mem_nil h)
  | cons h0 hs ih =>
    intro orig extra cycle today bid hdisj hnd h hmem
    have hnd' : (hs.map House.id).Nodup := (List.nodup_cons.mp hnd).2
    have h0notin : h0.id ∉ hs.map House.id := (List.nodup_cons.mp hnd).1
    rcases List.mem_cons.mp hmem with rfl | hmem'
    · have hbal : latestBalanceOfType (orig ++ extra) h.id "maintenance" =
          latestBalanceOfType orig h.id "maintenance" :=
        latestBalanceOfType_append_irrelevant orig extra h.id "maintenance"
          (fun e he => hdisj e he h (List.mem_cons_self h hs))
      refine ⟨mkMaintenanceBill (orig ++ extra) h cycle today bid,
        List.mem_cons_self _ _, rfl, ?_, ?_, rfl, rfl, rfl, rfl, rfl, rfl, rfl⟩
      · exact hbal
      · show (3000 : ℚ) + latestBalanceOfType (orig ++ extra) h.id "maintenance" = _
        rw [hbal]
    · have hdisj' : ∀ e ∈ extra ++ [mkMaintenanceBill (orig ++ extra) h0 cycle today bid],
          ∀ hh ∈ hs, e.house_id ≠ hh.id := by
        intro e he hh hhm
        rcases List.mem_append.mp he with he' | he'
        · exact hdisj e he' hh (List.mem_cons_of_mem h0 hhm)
        · have heq : e = mkMaintenanceBill (orig ++ extra) h0 cycle today bid :=
            List.mem_singleton.mp he'
          subst heq
          show h0.id ≠ hh.id
          intro hcontra
          exact h0notin (hcontra ▸ List.mem_map_of_mem House.id hhm)
      obtain ⟨b, hbmem, hprops⟩ := ih orig
        (extra ++ [mkMaintenanceBill (orig ++ extra) h0 cycle today bid])
        cycle today (bid + 1) hdisj' hnd' h hmem'
      refine ⟨b, ?_, hprops⟩
      have hassoc : orig ++ (extra ++ [mkMaintenanceBill (orig ++ extra) h0 cycle today bid]) =
          (orig ++ extra) ++ [mkMaintenanceBill (orig ++ extra) h0 cycle today bid] :=
        (List.append_assoc orig extra _).symm
      rw [hassoc] at hbmem
      exact List.mem_cons_of_mem _ hbmem

/-- Claim C3: in a maintenance generation run that is not aborted as a
duplicate, every occupied house receives a bill whose previous balance is
the current balance of its most recent prior maintenance bill (0 if none),
whose total due is 3000 plus that balance, due 15 days after generation,
with nothing paid, a balance equal to the total due, and status pending. -/
theorem maintenance_generation_spec (db : DB) (cycle : String) (f : WaterForm)
    (preview : Bool) (today : Int) (bid : Nat)
    (hno : ∀ b ∈ db.bills, ¬(b.billing_cycle = cycle ∧ b.bill_type = "maintenance"))
    (hnd : ((db.houses.filter fun hh => hh.status == "occupied").map House.id).Nodup)
    (h : House) (hmem : h ∈ db.houses) (hocc : h.status = "occupied") :
    ∃ b ∈ ((generate_bills db cycle "maintenance" f preview today bid).1).bills,
      b.house_id = h.id ∧
      b.previous_balance = latestBalanceOfType db.bills h.id "maintenance" ∧
      b.total_amount_due = 3000 + latestBalanceOfType db.bills h.id "maintenance" ∧
      b.due_date = today + 15 ∧ b.generation_date = today ∧
      b.total_amount_paid = 0 ∧ b.current_balance = b.total_amount_due ∧
      b.status = "pending" := by
  have hfil : db.bills.filter
      (fun x => x.billing_cycle == cycle && x.bill_type == "maintenance") = [] := by
    rw [List.filter_eq_nil_iff]
    intro x hx
    simpa using hno x hx
  have hgen : generate_bills db cycle "maintenance" f preview today bid =
      ({ db with bills := db.bills ++ genMaintenanceBills db.bills (db.houses.filter fun hh => hh.status == "occupied") cycle today bid }, none) := by
    simp [generate_bills, hfil]
  have hoccmem : h ∈ db.houses.filter fun hh => hh.status == "occupied" :=
    List.mem_filter.mpr ⟨hmem, by simp [hocc]⟩
  obtain ⟨b, hbmem, hp1, hp2, hp3, hp4, hp5, hp6, hp7, hp8, _, _⟩ :=
    genMaintenanceBills_spec (db.houses.filter fun hh => hh.status == "occupied")
      db.bills [] cycle today bid
      (fun e he => absurd he (List.not_mem_nil e)) hnd h hoccmem
  rw [List.append_nil] at hbmem
  rw [hgen]
  exact ⟨b, List.mem_append_right _ hbmem, hp1, hp2, hp3, hp5, hp4, hp6, hp7, hp8⟩

/-- A ledger with one occupied house and no bills. -/
def db1 : DB :=
  { houses := [⟨1, "H101", "Asha", "occupied"⟩], meter_readings := []
    bills := [], payments := [] }

/-- Witness for C3: house 1 of db1 has no prior bills, so its previous
balance is 0 and its generated maintenance bill carries total due 3000,
balance 3000 and status pending. -/
theorem maintenance_generation_spec_witness :
    latestBalanceOfType db1.bills 1 "maintenance" = 0 ∧
    ∃ b ∈ ((generate_bills db1 "2025-01" "maintenance" wform0 false 0 1).1).bills,
      b.house_id = 1 ∧
      b.previous_balance = latestBalanceOfType db1.bills 1 "maintenance" ∧
      b.total_amount_due = 3000 + latestBalanceOfType db1.bills 1 "maintenance" ∧
      b.due_date = 0 + 15 ∧ b.generation_date = 0 ∧
      b.total_amount_paid = 0 ∧ b.current_balance = b.total_amount_due ∧
      b.status = "pending" :=
  ⟨rfl, maintenance_generation_spec db1 "2025-01" wform0 false 0 1
    (fun b hb => absurd hb (List.not_mem_nil b))
    (by decide)
    ⟨1, "H101", "Asha", "occupied"⟩ (by simp [db1]) rfl⟩

/-- Every bill produced by the maintenance loop carries the id of one of
the supplied houses. -/
theorem genMaintenanceBills_house_ids (houses : List House) :
    ∀ (orig : List Bill) (cycle : String) (today : Int) (bid : Nat),
    ∀ b ∈ genMaintenanceBills orig houses cycle today bid, ∃ h ∈ houses, b.house_id = h.id := by
  induction houses with
  | nil =>
    intro _ _ _ _ b hb
    exact absurd hb (List.not_mem_nil b)
  | cons h0 hs ih =>
    intro orig cycle today bid b hb
    rcases List.mem_cons.mp hb with rfl | hb'
    · exact ⟨h0, List.mem_cons_self _ _, rfl⟩
    · obtain ⟨h, hm, he⟩ := ih _ cycle today (bid + 1) b hb'
      exact ⟨h, List.mem_cons_of_mem _ hm, he⟩

/-- Every bill produced by the final water loop carries the id of one of
the supplied houses. -/
theorem genWaterBills_house_ids (houses : List House) :
    ∀ (f : WaterForm) (cycle : String) (today : Int) (bid : Nat),
    ∀ b ∈ genWaterBills f houses cycle today bid, ∃ h ∈ houses, b.house_id = h.id := by
  induction houses with
  | nil =>
    intro _ _ _ _ b hb
    exact absurd hb (List.not_mem_nil b)
  | cons h0 hs ih =>
    intro f cycle today bid b hb
    rcases List.mem_cons.mp hb with rfl | hb'
    · exact ⟨h0, List.mem_cons_self _ _, rfl⟩
    · obtain ⟨h, hm, he⟩ := ih f cycle today (bid + 1) b hb'
      exact ⟨h, List.mem_cons_of_mem _ hm, he⟩

/-- Claim C10: generation runs bill only occupied houses.  Whatever the
cycle, bill type, form values or preview flag, any bill of the resulting
ledger that belongs to a house whose status is not occupied already
existed before the run: a vacant house never receives a bill. -/
theorem generation_only_occupied (db : DB) (cycle ty : String) (f : WaterForm)
    (preview : Bool) (today : Int) (bid : Nat)
    (hnd : (db.houses.map House.id).Nodup)
    (hv : House) (hvm : hv ∈ db.houses) (hvac : hv.status ≠ "occupied")
    (b : Bill) (hb : b ∈ ((generate_bills db cycle ty f preview today bid).1).bills)
    (hbid : b.house_id = hv.id) :
    b ∈ db.bills := by
  have hinj := List.inj_on_of_nodup_map hnd
  unfold generate_bills at hb
  split at hb
  · exact hb
  · split at hb
    · rcases List.mem_append.mp hb with hold | hnew
      · exact hold
      · exfalso
        obtain ⟨h, hmf, hid⟩ :=
          genMaintenanceBills_house_ids (db.houses.filter fun hh => hh.status == "occupied")
            db.bills cycle today bid b hnew
        obtain ⟨hmem, hoccb⟩ := List.mem_filter.mp hmf
        have : h = hv := hinj hmem hvm (by rw [← hid, hbid])
        subst this
        exact hvac (by simpa using hoccb)
    · split at hb
      · split at hb
        · exact hb
        · rcases List.mem_append.mp hb with hold | hnew
          · exact hold
          · exfalso
            obtain ⟨h, hmf, hid⟩ :=
              genWaterBills_house_ids (db.houses.filter fun hh => hh.status == "occupied")
                f cycle today bid b hnew
            obtain ⟨hmem, hoccb⟩ := List.mem_filter.mp hmf
            have : h = hv := hinj hmem hvm (by rw [← hid, hbid])
            subst this
            exact hvac (by simpa using hoccb)
      · exact hb

/-- An old maintenance bill of the vacant house 2, cycle 2024-12. -/
def oldBill2 : Bill :=
  { id := 7, house_id := 2, bill_type := "maintenance", billing_cycle := "2024-12"
    generation_date := -30, due_date := -15
    fixed_maintenance := 3000, individual_water_consumption := 0
    individual_water_charge := 0, water_maintenance_25_percent := 0
    waste_water_charge := 0, repair_charge := 0
    previous_balance := 0, total_amount_due := 3000
    total_amount_paid := 0, current_balance := 3000, status := "pending" }

/-- A ledger whose only house is vacant, holding one old bill of it. -/
def dbVacant : DB :=
  { houses := [⟨2, "H102", "Bina", "vacant"⟩], meter_readings := []
    bills := [oldBill2], payments := [] }

/-- Witness for C10: running maintenance generation for 2025-01 over the
ledger of the vacant house 2 leaves its old bill as the only bill of that
house, i.e. the bill already existed before the run. -/
theorem generation_only_occupied_witness : oldBill2 ∈ dbVacant.bills :=
  generation_only_occupied dbVacant "2025-01" "maintenance" wform0 false 0 8
    (by decide) ⟨2, "H102", "Bina", "vacant"⟩ (by simp [dbVacant])
    (by decide) oldBill2 (by decide) rfl

end CommunityApp
